import Mathlib

/-!
Shallow embedding of the youtube-backend read model:
  * src/src/utils/asyncHandler.js            (asyncHandler)
  * src/unnamed/part_000                     (getChannelStats, getChannelVideos)
  * src/src/models/subcription.model.js      (Subscription schema,
                                              getUserChannelProfile, getWatchHistory)
MongoDB documents are modelled as association lists of (field, value) pairs so
that query matching on absent fields, default `_id` inclusion in `$project`,
and `$lookup` result order are all represented faithfully.
-/

deriving instance DecidableEq for Except

namespace YoutubeBackend

/-- JavaScript `String.prototype.trim()`: strip leading and trailing
whitespace. -/
def jsTrim (s : String) : String :=
  ⟨((s.data.dropWhile Char.isWhitespace).reverse.dropWhile Char.isWhitespace).reverse⟩

/-- JavaScript `String.prototype.toLowerCase()`. -/
def jsToLowerCase (s : String) : String :=
  ⟨s.data.map Char.toLower⟩

/-- Modelled from the spec: the `Like` `type` discriminator enum
(like.model.js is not under src/); spec §3: `type: enum\x7bvideo, comment, tweet\x7d`. -/
inductive LikeType where
  | video
  | comment
  | tweet
deriving DecidableEq

/-- Modelled from the spec: the User schema (user.model.js is not under src/);
spec §3: id, username (lowercase-normalized), email, fullName, hashed password,
avatar URL, coverImage URL, optional refreshToken, ordered watchHistory of Video ids.
Object ids are modelled as strings. -/
structure User where
  id : String
  username : String
  email : String
  fullName : String
  password : String
  avatar : String
  coverImage : String
  refreshToken : Option String
  watchHistory : List String
deriving DecidableEq

/-- Modelled from the spec: the Video schema (video.model.js is not under src/);
spec §3: id, owner: User id, title, description/file metadata (elided to title),
views counter, createdAt.  The owner field name is corroborated in-repo by the
`getWatchHistory` pipeline, which joins `videos.owner` to `users._id`. -/
structure Video where
  id : String
  owner : String
  title : String
  views : Nat
  createdAt : Nat
deriving DecidableEq

/-- Subscription schema, src/src/models/subcription.model.js lines 3-12:
a directed edge subscriber -> channel, both User ids. -/
structure Subscription where
  id : String
  subscriber : String
  channel : String
deriving DecidableEq

/-- Modelled from the spec: the Like schema (like.model.js is not under src/);
spec §3: id, resource: generic id, type tag, likedBy: User id. -/
structure Like where
  id : String
  resource : String
  type : LikeType
  likedBy : String
deriving DecidableEq

/-- The document store: one collection per model, in insertion (natural) order. -/
structure Store where
  users : List User
  videos : List Video
  subscriptions : List Subscription
  likes : List Like
deriving DecidableEq

/-- A BSON-style field value, as far as the four schemas need. -/
inductive Val where
  | oid (s : String)
  | str (s : String)
  | nat (n : Nat)
  | bool (b : Bool)
  | null
  | oidArr (l : List String)
deriving DecidableEq

/-- A MongoDB document: an ordered association list of fields. -/
abbrev Doc := List (String × Val)

/-- The string tag stored in a Like document's `type` field. -/
def LikeType.tag : LikeType → String
  | .video => "video"
  | .comment => "comment"
  | .tweet => "tweet"

/-- The BSON document a User record is stored as. -/
def userDoc (u : User) : Doc :=
  [("_id", Val.oid u.id), ("username", Val.str u.username), ("email", Val.str u.email),
   ("fullName", Val.str u.fullName), ("password", Val.str u.password),
   ("avatar", Val.str u.avatar), ("coverImage", Val.str u.coverImage),
   ("refreshToken", match u.refreshToken with | some t => Val.str t | none => Val.null),
   ("watchHistory", Val.oidArr u.watchHistory)]

/-- The BSON document a Video record is stored as.  Note: there is no
`channel` field; the owning user is the `owner` field. -/
def videoDoc (v : Video) : Doc :=
  [("_id", Val.oid v.id), ("owner", Val.oid v.owner), ("title", Val.str v.title),
   ("views", Val.nat v.views), ("createdAt", Val.nat v.createdAt)]

/-- The BSON document a Subscription record is stored as. -/
def subscriptionDoc (e : Subscription) : Doc :=
  [("_id", Val.oid e.id), ("subscriber", Val.oid e.subscriber),
   ("channel", Val.oid e.channel)]

/-- The BSON document a Like record is stored as. -/
def likeDoc (l : Like) : Doc :=
  [("_id", Val.oid l.id), ("resource", Val.oid l.resource),
   ("type", Val.str l.type.tag), ("likedBy", Val.oid l.likedBy)]

/-- MongoDB equality match of one query field against a document: the document
has the field and its value equals the queried value.  A field that is absent
from a document never matches a concrete (non-null) queried value; query paths
are not stripped when absent from the schema (mongoose `strictQuery` default). -/
def fieldMatches (d : Doc) (k : String) (v : Val) : Bool :=
  List.lookup k d == some v

/-- `Model.countDocuments(query)` with an equality-only query document. -/
def countDocuments (coll : List Doc) (query : Doc) : Nat :=
  (coll.filter (fun d => query.all (fun kv => fieldMatches d kv.1 kv.2))).length

/-- Models mongoose.isValidObjectId (library code, not under src/): the
identifier shape accepted by the store, a 24-character hexadecimal string. -/
def isValidObjectId (s : String) : Bool :=
  s.length == 24 && s.toList.all (fun c => c.isDigit || "abcdefABCDEF".toList.contains c)

/-- An ApiError as thrown by the handlers: HTTP status code and message. -/
structure ApiError where
  statusCode : Nat
  message : String
deriving DecidableEq

/-- The stats object assembled by getChannelStats (part_000 lines 24-29). -/
structure ChannelStats where
  totalVideos : Nat
  totalSubscribers : Nat
  totalLikes : Nat
  totalViews : Nat
deriving DecidableEq

/-- `Video.find(\x7bchannel: channelId\x7d).distinct("_id")` (part_000 line 18):
ids of videos whose (non-existent) `channel` field equals channelId. -/
def ownedVideoIdsQuery (s : Store) (channelId : String) : List String :=
  ((((s.videos.map videoDoc).filter
      (fun d => fieldMatches d "channel" (Val.oid channelId))).filterMap
    (fun d => match List.lookup "_id" d with | some (Val.oid i) => some i | _ => none)).dedup)

/-- The `$match \x7bchannel: channelId\x7d` / `$group $sum views` aggregate
(part_000 lines 19-22): one output row when at least one video matched, none
otherwise. -/
def totalViewsPipeline (s : Store) (channelId : String) : List Nat :=
  let matched := s.videos.filter
    (fun v => fieldMatches (videoDoc v) "channel" (Val.oid channelId))
  if matched.isEmpty then [] else [(matched.map Video.views).sum]

/-- getChannelStats, src/unnamed/part_000 lines 9-30.  All Video and Like
queries filter on a `channel` field exactly as the source does. -/
def getChannelStats (s : Store) (channelId : String) : Except ApiError ChannelStats :=
  if isValidObjectId channelId = false then
    Except.error ⟨400, "Invalid channel ID"⟩
  else
    let totalVideos := countDocuments (s.videos.map videoDoc) [("channel", Val.oid channelId)]
    let totalSubscribers :=
      countDocuments (s.subscriptions.map subscriptionDoc) [("channel", Val.oid channelId)]
    let ownedIds := ownedVideoIdsQuery s channelId
    let totalLikes := ((s.likes.map likeDoc).filter (fun d =>
        (match List.lookup "resource" d with
         | some (Val.oid r) => ownedIds.contains r
         | _ => false)
        && fieldMatches d "type" (Val.str "video"))).length
    let totalViews := (totalViewsPipeline s channelId).headD 0
    Except.ok ⟨totalVideos, totalSubscribers, totalLikes, totalViews⟩

/-- `.sort(\x7bcreatedAt: -1\x7d)`: newest first. -/
def sortByCreatedAtDesc (l : List Video) : List Video :=
  l.insertionSort (fun a b => b.createdAt ≤ a.createdAt)

/-- getChannelVideos, src/unnamed/part_000 lines 32-46.  The mongoose query
builder applies sort before skip/limit regardless of chaining order. -/
def getChannelVideos (s : Store) (channelId : String) (page limit : Nat) :
    Except ApiError (List Video) :=
  if isValidObjectId channelId = false then
    Except.error ⟨400, "Invalid channel ID"⟩
  else
    let matched := s.videos.filter
      (fun v => fieldMatches (videoDoc v) "channel" (Val.oid channelId))
    Except.ok (((sortByCreatedAtDesc matched).drop ((page - 1) * limit)).take limit)

/-! asyncHandler, src/src/utils/asyncHandler.js lines 1-7.  The outer arrow
function has a block body whose single statement is an expression statement
(the inner arrow function); there is no return statement, so the call
evaluates to `undefined`. -/

structure Req where
  requestId : Nat

structure Res where
  statusCode : Nat

structure JsError where
  errorMessage : String

/-- A promise that either resolved or rejected with a JS error. -/
abbrev Promise (α : Type) := Except JsError α

/-- An Express-style request handler: receives req, res and the `next`
error callback and yields a (settled) promise. -/
abbrev RequestHandler := Req → Res → (JsError → Unit) → Promise Unit

/-- What a JS function call evaluates to: an explicit return value, or
`undefined` when control falls off the end of the body. -/
inductive BodyResult (α : Type) where
  | undefinedValue
  | returnValue (a : α)

/-- The statements a JS function body may contain, as far as asyncHandler
needs: an expression evaluated for its value (here: constructing an arrow
function, which has no side effect) or a return statement. -/
inductive FnStmt (α : Type) where
  | exprStmt (e : α)
  | returnStmt (e : α)

/-- Run a JS function body: the value of the first return statement, or
`undefined` when the statement list is exhausted. -/
def runFnBody {α : Type} : List (FnStmt α) → BodyResult α
  | [] => BodyResult.undefinedValue
  | FnStmt.exprStmt _ :: rest => runFnBody rest
  | FnStmt.returnStmt e :: _ => BodyResult.returnValue e

/-- The inner arrow function of asyncHandler (lines 2-6):
`Promise.resolve(requestHandler(req, res, next)).catch(error => next(error))`. -/
def wrapperFn (requestHandler : RequestHandler) : Req → Res → (JsError → Unit) → Unit :=
  fun req res next =>
    match requestHandler req res next with
    | Except.ok _ => ()
    | Except.error e => next e

/-- asyncHandler (lines 1-7): a block body holding one expression statement
(the inner arrow function) and no return statement. -/
def asyncHandler (requestHandler : RequestHandler) :
    BodyResult (Req → Res → (JsError → Unit) → Unit) :=
  runFnBody [FnStmt.exprStmt (wrapperFn requestHandler)]

/-! getUserChannelProfile, src/src/models/subcription.model.js lines 316-383. -/

/-- MongoDB `$project` with an inclusion list (lines 362-373 and 407-415):
keeps exactly the listed fields plus `_id`, which an inclusion projection
includes by default unless explicitly suppressed. -/
def projectInclusion (fields : List String) (d : Doc) : Doc :=
  d.filter (fun kv => kv.1 == "_id" || fields.contains kv.1)

/-- The `$lookup` of subscriptions with `foreignField: "channel"` (lines
330-336): the edges whose channel is this user, in collection order. -/
def subscribersOf (s : Store) (u : User) : List Subscription :=
  s.subscriptions.filter (fun e => e.channel == u.id)

/-- The `$lookup` of subscriptions with `foreignField: "subscriber"` (lines
338-344): the edges this user subscribed, in collection order. -/
def subscribedToOf (s : Store) (u : User) : List Subscription :=
  s.subscriptions.filter (fun e => e.subscriber == u.id)

/-- `$cond \x7bif: \x7b$in: [req.user?._id, "$subscribers.subscriber"]\x7d\x7d`
(lines 353-359).  An absent viewer (`req.user?._id === undefined`) is
serialized as null, which never equals any of the subscriber object ids. -/
def isSubscribedFlag (viewerId : Option String) (subscribers : List Subscription) : Bool :=
  match viewerId with
  | some v => (subscribers.map Subscription.subscriber).contains v
  | none => false

/-- The document produced for one matched user by the `$lookup` / `$addFields`
/ `$project` stages of the channel-profile pipeline (lines 329-373). -/
def profileDocOf (s : Store) (viewerId : Option String) (u : User) : Doc :=
  let subscribers := subscribersOf s u
  let subscribedTo := subscribedToOf s u
  projectInclusion
    ["fullName", "username", "avatar", "coverImage", "subscribersCount",
     "channelsSubscribedToCount", "isSubscribed", "email"]
    (userDoc u ++
      [("subscribersCount", Val.nat subscribers.length),
       ("channelsSubscribedToCount", Val.nat subscribedTo.length),
       ("isSubscribed", Val.bool (isSubscribedFlag viewerId subscribers))])

/-- The full aggregation of lines 323-374: `$match` on the lowercased
username, then per-user lookups, derived fields and projection. -/
def channelProfilePipeline (s : Store) (viewerId : Option String) (username : String) :
    List Doc :=
  (s.users.filter (fun u => u.username == jsToLowerCase username)).map (profileDocOf s viewerId)

/-- getUserChannelProfile (lines 316-383): 400 when the username is blank
after trimming, 404 when the pipeline output is empty, else `channel[0]`. -/
def getUserChannelProfile (s : Store) (viewerId : Option String) (username : String) :
    Except ApiError Doc :=
  if jsTrim username = "" then
    Except.error ⟨400, "Username is required to get Profile"⟩
  else
    match (channelProfilePipeline s viewerId username).head? with
    | none => Except.error ⟨404, "Channel not found"⟩
    | some d => Except.ok d

/-! getWatchHistory, src/src/models/subcription.model.js lines 385-433. -/

/-- The owner sub-pipeline projection (lines 408-415): fullName, username,
avatar — plus the `_id` an inclusion projection keeps by default. -/
def ownerProjectionDoc (u : User) : Doc :=
  projectInclusion ["fullName", "username", "avatar"] (userDoc u)

/-- A video of the looked-up watch history after the owner sub-pipeline
(lines 400-425): the video together with `$first` of the projected owner
matches — absent (none) when the owner lookup found no user. -/
structure EnrichedVideo where
  video : Video
  owner : Option Doc
deriving DecidableEq

/-- The inner `$lookup` on users plus the `$first` flattening (lines 402-424):
owner matches are collected in users-collection order; `$first` of an empty
array leaves the field absent. -/
def enrichVideo (users : List User) (v : Video) : EnrichedVideo :=
  ⟨v, ((users.filter (fun u => u.id == v.owner)).map ownerProjectionDoc).head?⟩

/-- getWatchHistory (lines 385-433).  The outer `$lookup` on videos with
`localField: "watchHistory"` collects the matching Video documents in
videos-collection order (MongoDB does not reorder them to follow the local
array).  `user[0]?.watchHistory || []` degrades a missing user to `[]`. -/
def getWatchHistory (s : Store) (userId : String) : List EnrichedVideo :=
  match (s.users.filter (fun u => u.id == userId)).head? with
  | none => []
  | some u => (s.videos.filter (fun v => u.watchHistory.contains v.id)).map
      (enrichVideo s.users)

/-! Concrete fixtures used by witnesses, counterexamples and code-bug
evaluations.  `chanA` is a syntactically valid object id. -/

/-- A syntactically valid channel object id. -/
def chanA : String := "aaaaaaaaaaaaaaaaaaaaaaaa"

/-- A video owned by channel `chanA`, with 7 views. -/
def vid1 : Video := ⟨"v1", chanA, "t1", 7, 1⟩

/-- A subscription of user s1 to channel `chanA`. -/
def edge1 : Subscription := ⟨"e1", "s1", chanA⟩

/-- A like of type video on `vid1`. -/
def like1 : Like := ⟨"l1", "v1", LikeType.video, "s1"⟩

/-- A store where channel `chanA` owns one liked video and has one subscriber. -/
def statsStore : Store := ⟨[], [vid1], [edge1], [like1]⟩

/-- A store with no records at all. -/
def noVideosStore : Store := ⟨[], [], [], []⟩

/-- Seven videos owned by `chanA`, `pv1` the newest and `pv7` the oldest. -/
def pageVideos : List Video :=
  [⟨"p1", chanA, "t", 0, 7⟩, ⟨"p2", chanA, "t", 0, 6⟩, ⟨"p3", chanA, "t", 0, 5⟩,
   ⟨"p4", chanA, "t", 0, 4⟩, ⟨"p5", chanA, "t", 0, 3⟩, ⟨"p6", chanA, "t", 0, 2⟩,
   ⟨"p7", chanA, "t", 0, 1⟩]

/-- A store where channel `chanA` owns exactly seven videos. -/
def pageStore : Store := ⟨[], pageVideos, [], []⟩

/-- A channel user with username `chan`. -/
def chanUser : User := ⟨"c1", "chan", "c@x", "Chan Person", "pw", "av", "cov", none, []⟩

/-- A subscriber user. -/
def subUser : User := ⟨"s1", "subby", "s@x", "Sub Person", "pw2", "av2", "cov2", none, []⟩

/-- subUser follows chanUser. -/
def followEdge : Subscription := ⟨"e2", "s1", "c1"⟩

/-- A store with a channel and one subscriber following it. -/
def profileStore : Store := ⟨[chanUser, subUser], [], [followEdge], []⟩

/-- The profile document the pipeline produces for chanUser viewed by s1. -/
def chanProfileDoc : Doc :=
  [("_id", Val.oid "c1"), ("username", Val.str "chan"), ("email", Val.str "c@x"),
   ("fullName", Val.str "Chan Person"), ("avatar", Val.str "av"),
   ("coverImage", Val.str "cov"), ("subscribersCount", Val.nat 1),
   ("channelsSubscribedToCount", Val.nat 0), ("isSubscribed", Val.bool true)]

/-- The profile document the pipeline produces for chanUser viewed anonymously. -/
def chanProfileDocAnon : Doc :=
  [("_id", Val.oid "c1"), ("username", Val.str "chan"), ("email", Val.str "c@x"),
   ("fullName", Val.str "Chan Person"), ("avatar", Val.str "av"),
   ("coverImage", Val.str "cov"), ("subscribersCount", Val.nat 1),
   ("channelsSubscribedToCount", Val.nat 0), ("isSubscribed", Val.bool false)]

/-- Owner of `vidV1`. -/
def ownerO1 : User := ⟨"o1", "own1", "o1@x", "Owner One", "p", "a", "c", none, []⟩

/-- Owner of `vidV3`. -/
def ownerO3 : User := ⟨"o3", "own3", "o3@x", "Owner Three", "p", "a", "c", none, []⟩

/-- A user whose watch history is [v3, v1], most recent first. -/
def viewerU : User := ⟨"u1", "view", "u@x", "Viewer", "p", "a", "c", none, ["v3", "v1"]⟩

/-- Video v1, stored before v3 in the videos collection. -/
def vidV1 : Video := ⟨"v1", "o1", "t1", 3, 1⟩

/-- Video v3. -/
def vidV3 : Video := ⟨"v3", "o3", "t3", 9, 3⟩

/-- A store where the videos collection holds v1 before v3 while the user's
watch history lists v3 before v1. -/
def historyStore : Store := ⟨[viewerU, ownerO1, ownerO3], [vidV1, vidV3], [], []⟩

/-- A watched video whose owner id matches no user. -/
def orphanVideo : Video := ⟨"w1", "ghost", "tw", 0, 1⟩

/-- A user who watched only `orphanVideo`. -/
def historyUserB : User := ⟨"u2", "ub", "u2@x", "User B", "p", "a", "c", none, ["w1"]⟩

/-- A store exercising the degraded paths of getWatchHistory. -/
def degradeStore : Store := ⟨[historyUserB], [orphanVideo], [], []⟩

/-! ## Theorems -/

/-- C2: asyncHandler's outer arrow function constructs the wrapper as an
expression statement but never returns it, so `asyncHandler(f)` evaluates to
`undefined` for every request handler `f` — every handler wrapped with it is
undefined rather than a callable handler. -/
theorem asyncHandler_always_undefined (f : RequestHandler) :
    asyncHandler f = BodyResult.undefinedValue := rfl

/-- C9: when channelId is not a syntactically valid store identifier, both
getChannelStats and getChannelVideos fail with HTTP 400 before any store
query is issued (the result does not depend on the store at all). -/
theorem invalid_channelId_rejected (s s2 : Store) (cid : String) (page limit p2 l2 : Nat)
    (h : isValidObjectId cid = false) :
    getChannelStats s cid = Except.error ⟨400, "Invalid channel ID"⟩ ∧
    getChannelVideos s cid page limit = Except.error ⟨400, "Invalid channel ID"⟩ ∧
    getChannelStats s cid = getChannelStats s2 cid ∧
    getChannelVideos s cid page limit = getChannelVideos s2 cid p2 l2 := by
  simp [getChannelStats, getChannelVideos, h]

/-- Witness for C9 at the concrete invalid id "nope" and two distinct stores. -/
theorem invalid_channelId_rejected_witness :
    isValidObjectId "nope" = false ∧
    getChannelStats statsStore "nope" = Except.error ⟨400, "Invalid channel ID"⟩ ∧
    getChannelVideos statsStore "nope" 2 5 = Except.error ⟨400, "Invalid channel ID"⟩ := by
  have h := invalid_channelId_rejected statsStore noVideosStore "nope" 2 5 1 10 (by decide)
  exact ⟨by decide, h.1, h.2.1⟩

/-- C1 (code bug evidence): on a store where channel `chanA` owns one video
with one video-type like and has one subscriber, getChannelStats returns
totalVideos = 0 and totalLikes = 0 because it queries the Video collection by
a `channel` field that Video documents do not have (the schema field is
`owner`), while the counts the claim specifies are 1. -/
theorem getChannelStats_channel_field_divergence :
    getChannelStats statsStore chanA = Except.ok ⟨0, 1, 0, 0⟩ ∧
    (statsStore.videos.filter (fun v => v.owner == chanA)).length = 1 ∧
    (statsStore.likes.filter (fun l =>
        l.type == LikeType.video &&
        ((statsStore.videos.filter (fun v => v.owner == chanA)).map Video.id).contains
          l.resource)).length = 1 := by
  decide

/-- C4 (code bug evidence): with seven videos owned by `chanA`, page 2 with
limit 5 returns the empty list (the `channel`-field query matches nothing),
while filtering by owner, sorting newest first and paginating yields the
videos ranked 6th and 7th. -/
theorem getChannelVideos_channel_field_divergence :
    getChannelVideos pageStore chanA 2 5 = Except.ok [] ∧
    (((sortByCreatedAtDesc (pageStore.videos.filter (fun v => v.owner == chanA))).drop
        ((2 - 1) * 5)).take 5).map Video.id = ["p6", "p7"] := by
  decide

/-- C8 (code bug evidence): totalViews is 0 on a store where `chanA` owns a
video with 7 views (the `$match` filters a non-existent `channel` field), so
it does not equal the sum of owned views; the zero-videos case does default
every aggregate to 0 without an error. -/
theorem getChannelStats_totalViews_divergence :
    getChannelStats statsStore chanA = Except.ok ⟨0, 1, 0, 0⟩ ∧
    ((statsStore.videos.filter (fun v => v.owner == chanA)).map Video.views).sum = 7 ∧
    getChannelStats noVideosStore chanA = Except.ok ⟨0, 0, 0, 0⟩ := by
  decide

/-- C5: for the matched channel user, getUserChannelProfile derives
subscribersCount as the number of subscription edges into the channel,
channelsSubscribedToCount as the number of edges out of the user, and
isSubscribed true iff the viewer id appears among the subscriber values of
the channel's edges — in particular false for an anonymous viewer. -/
theorem getUserChannelProfile_counts_and_flag (s : Store) (viewerId : Option String)
    (username : String) (u : User) (d : Doc)
    (hu : (s.users.filter (fun x => x.username == jsToLowerCase username)).head? = some u)
    (hd : getUserChannelProfile s viewerId username = Except.ok d) :
    List.lookup "subscribersCount" d
        = some (Val.nat (s.subscriptions.filter (fun e => e.channel == u.id)).length) ∧
    List.lookup "channelsSubscribedToCount" d
        = some (Val.nat (s.subscriptions.filter (fun e => e.subscriber == u.id)).length) ∧
    (List.lookup "isSubscribed" d = some (Val.bool true) ↔
        ∃ v, viewerId = some v ∧
          v ∈ (s.subscriptions.filter (fun e => e.channel == u.id)).map
                Subscription.subscriber) ∧
    (viewerId = none → List.lookup "isSubscribed" d = some (Val.bool false)) := by
  have hne : ¬ jsTrim username = "" := by
    intro h
    simp [getUserChannelProfile, h] at hd
  unfold getUserChannelProfile at hd
  rw [if_neg hne] at hd
  unfold channelProfilePipeline at hd
  rw [List.head?_map, hu, Option.map_some'] at hd
  have hdp : profileDocOf s viewerId u = d := by simpa using hd
  subst hdp
  refine ⟨rfl, rfl, ?_, ?_⟩
  · rw [show List.lookup "isSubscribed" (profileDocOf s viewerId u)
        = some (Val.bool (isSubscribedFlag viewerId (subscribersOf s u))) from rfl]
    cases viewerId with
    | none => simp [isSubscribedFlag]
    | some v0 => simp [isSubscribedFlag, subscribersOf]
  · intro h
    subst h
    rfl

/-- Witness for C5: in the concrete store where s1 follows channel c1, the
profile viewed by s1 carries subscribersCount 1 and isSubscribed true. -/
theorem getUserChannelProfile_counts_and_flag_witness :
    List.lookup "subscribersCount" chanProfileDoc
        = some (Val.nat (profileStore.subscriptions.filter
            (fun e => e.channel == chanUser.id)).length) ∧
    List.lookup "isSubscribed" chanProfileDoc = some (Val.bool true) := by
  have h := getUserChannelProfile_counts_and_flag profileStore (some "s1") "chan"
    chanUser chanProfileDoc (by decide) (by decide)
  exact ⟨h.1, h.2.2.1.mpr ⟨"s1", rfl, by decide⟩⟩

/-- C6 counterexample: the successful profile record additionally carries the
`_id` field (inclusion projections keep `_id` by default), so it does not
contain only the eight fields the claim lists. -/
theorem getUserChannelProfile_projection_counterexample :
    getUserChannelProfile profileStore none "chan" = Except.ok chanProfileDocAnon ∧
    "_id" ∈ chanProfileDocAnon.map Prod.fst ∧
    ¬ (∀ k ∈ chanProfileDocAnon.map Prod.fst,
        k ∈ ["fullName", "username", "avatar", "coverImage", "subscribersCount",
             "channelsSubscribedToCount", "isSubscribed", "email"]) := by
  decide

/-- C6 amended: every successful getUserChannelProfile record carries exactly
`_id` plus the eight projected fields, and never password, refreshToken or
watchHistory. -/
theorem getUserChannelProfile_projection_keys (s : Store) (viewerId : Option String)
    (username : String) (d : Doc)
    (hd : getUserChannelProfile s viewerId username = Except.ok d) :
    d.map Prod.fst = ["_id", "username", "email", "fullName", "avatar", "coverImage",
      "subscribersCount", "channelsSubscribedToCount", "isSubscribed"] ∧
    "password" ∉ d.map Prod.fst ∧ "refreshToken" ∉ d.map Prod.fst ∧
    "watchHistory" ∉ d.map Prod.fst := by
  by_cases h : jsTrim username = ""
  · simp [getUserChannelProfile, h] at hd
  · unfold getUserChannelProfile at hd
    rw [if_neg h] at hd
    cases hh : (channelProfilePipeline s viewerId username).head? with
    | none => rw [hh] at hd; exact absurd hd (by simp)
    | some d0 =>
        rw [hh] at hd
        have hdd : d0 = d := by simpa using hd
        subst hdd
        unfold channelProfilePipeline at hh
        rw [List.head?_map] at hh
        rcases Option.map_eq_some'.mp hh with ⟨u, _, hfu⟩
        subst hfu
        refine ⟨rfl, ?_, ?_, ?_⟩ <;>
          rw [show (profileDocOf s viewerId u).map Prod.fst
            = ["_id", "username", "email", "fullName", "avatar", "coverImage",
               "subscribersCount", "channelsSubscribedToCount", "isSubscribed"] from rfl] <;>
          decide

/-- Witness for C6's amended statement at the concrete anonymous profile. -/
theorem getUserChannelProfile_projection_keys_witness :
    chanProfileDocAnon.map Prod.fst
        = ["_id", "username", "email", "fullName", "avatar", "coverImage",
           "subscribersCount", "channelsSubscribedToCount", "isSubscribed"] ∧
    "password" ∉ chanProfileDocAnon.map Prod.fst ∧
    "refreshToken" ∉ chanProfileDocAnon.map Prod.fst ∧
    "watchHistory" ∉ chanProfileDocAnon.map Prod.fst :=
  getUserChannelProfile_projection_keys profileStore none "chan" chanProfileDocAnon
    (by decide)

/-- C7: a blank-after-trimming username yields HTTP 400 without consulting the
store (the result is store- and viewer-independent), and a non-blank username
matching no user yields HTTP 404 — an error distinct from a successful empty
record. -/
theorem getUserChannelProfile_error_contract (s s2 : Store) (v v2 : Option String)
    (username : String) :
    (jsTrim username = "" →
        getUserChannelProfile s v username
            = Except.error ⟨400, "Username is required to get Profile"⟩ ∧
        getUserChannelProfile s v username = getUserChannelProfile s2 v2 username) ∧
    (¬ jsTrim username = "" →
        s.users.filter (fun u => u.username == jsToLowerCase username) = [] →
        getUserChannelProfile s v username = Except.error ⟨404, "Channel not found"⟩ ∧
        ∀ d, getUserChannelProfile s v username ≠ Except.ok d) := by
  constructor
  · intro h
    simp [getUserChannelProfile, h]
  · intro h hf
    simp [getUserChannelProfile, h, channelProfilePipeline, hf]

/-- Witness for C7: blank username gives 400, unknown username gives 404. -/
theorem getUserChannelProfile_error_contract_witness :
    getUserChannelProfile profileStore none "   "
        = Except.error ⟨400, "Username is required to get Profile"⟩ ∧
    getUserChannelProfile profileStore none "ghost"
        = Except.error ⟨404, "Channel not found"⟩ := by
  refine ⟨((getUserChannelProfile_error_contract profileStore noVideosStore none none
    "   ").1 (by decide)).1, ?_⟩
  exact ((getUserChannelProfile_error_contract profileStore noVideosStore none none
    "ghost").2 (by decide) (by decide)).1

/-- C3 counterexample: for a user whose watchHistory is [v3, v1] while the
videos collection stores v1 before v3, getWatchHistory returns the enriched
videos in collection order (v1 then v3), not in watchHistory order, and the
owner sub-object carries an `_id` field in addition to fullName, username and
avatar. -/
theorem getWatchHistory_order_counterexample :
    viewerU.watchHistory = ["v3", "v1"] ∧
    getWatchHistory historyStore "u1"
        = [⟨vidV1, some (ownerProjectionDoc ownerO1)⟩,
           ⟨vidV3, some (ownerProjectionDoc ownerO3)⟩] ∧
    ¬ ((getWatchHistory historyStore "u1").map (fun e => e.video.id) = ["v3", "v1"]) ∧
    "_id" ∈ (ownerProjectionDoc ownerO1).map Prod.fst := by
  decide

/-- C3 amended: getWatchHistory returns the user's watched videos in the
order their records appear in the videos collection (MongoDB `$lookup` does
not reorder matches to follow the local watchHistory array), and every owner
sub-object that is present carries exactly the fields `_id`, username,
fullName and avatar — in particular no password and no email. -/
theorem getWatchHistory_store_order_enrichment (s : Store) (uid : String) (u : User)
    (hu : (s.users.filter (fun x => x.id == uid)).head? = some u) :
    (getWatchHistory s uid).map EnrichedVideo.video
        = s.videos.filter (fun v => u.watchHistory.contains v.id) ∧
    ∀ e ∈ getWatchHistory s uid, ∀ d, e.owner = some d →
        d.map Prod.fst = ["_id", "username", "fullName", "avatar"] ∧
        "password" ∉ d.map Prod.fst ∧ "email" ∉ d.map Prod.fst := by
  have hg : getWatchHistory s uid
      = (s.videos.filter (fun v => u.watchHistory.contains v.id)).map
          (enrichVideo s.users) := by
    unfold getWatchHistory
    rw [hu]
  constructor
  · rw [hg, List.map_map]
    have hcomp : (EnrichedVideo.video ∘ enrichVideo s.users) = id := rfl
    rw [hcomp, List.map_id]
  · intro e he d hdo
    rw [hg] at he
    rcases List.mem_map.mp he with ⟨v, _, hev⟩
    subst hev
    have ho : (((s.users.filter (fun x => x.id == v.owner)).map
        ownerProjectionDoc)).head? = some d := hdo
    rw [List.head?_map] at ho
    rcases Option.map_eq_some'.mp ho with ⟨u2, _, hfu⟩
    subst hfu
    refine ⟨rfl, ?_, ?_⟩ <;>
      rw [show (ownerProjectionDoc u2).map Prod.fst
        = ["_id", "username", "fullName", "avatar"] from rfl] <;>
      decide

/-- Witness for C3's amended statement at the concrete history store. -/
theorem getWatchHistory_store_order_enrichment_witness :
    (getWatchHistory historyStore "u1").map EnrichedVideo.video
        = historyStore.videos.filter (fun v => viewerU.watchHistory.contains v.id) :=
  (getWatchHistory_store_order_enrichment historyStore "u1" viewerU (by decide)).1

/-- C10: getWatchHistory never fails on missing data — an unresolved user id
yields the empty sequence, an empty watch history yields the empty sequence,
and a watched video whose owner lookup matches no user is still returned,
with its owner field absent. -/
theorem getWatchHistory_degrades_gracefully (s : Store) (uid : String) :
    ((s.users.filter (fun x => x.id == uid)).head? = none → getWatchHistory s uid = []) ∧
    (∀ u, (s.users.filter (fun x => x.id == uid)).head? = some u → u.watchHistory = [] →
        getWatchHistory s uid = []) ∧
    (∀ u v, (s.users.filter (fun x => x.id == uid)).head? = some u →
        v ∈ s.videos → u.watchHistory.contains v.id = true →
        s.users.filter (fun x => x.id == v.owner) = [] →
        EnrichedVideo.mk v none ∈ getWatchHistory s uid) := by
  refine ⟨?_, ?_, ?_⟩
  · intro h
    unfold getWatchHistory
    rw [h]
  · intro u hu hw
    unfold getWatchHistory
    rw [hu]
    simp [hw]
  · intro u v hu hv hc ho
    unfold getWatchHistory
    rw [hu]
    refine List.mem_map.mpr ⟨v, List.mem_filter.mpr ⟨hv, hc⟩, ?_⟩
    unfold enrichVideo
    rw [ho]
    rfl

/-- Witness for C10: an unknown user id yields [], and the orphan-owner video
is returned with owner absent. -/
theorem getWatchHistory_degrades_gracefully_witness :
    getWatchHistory degradeStore "zz" = [] ∧
    EnrichedVideo.mk orphanVideo none ∈ getWatchHistory degradeStore "u2" := by
  refine ⟨(getWatchHistory_degrades_gracefully degradeStore "zz").1 (by decide), ?_⟩
  exact (getWatchHistory_degrades_gracefully degradeStore "u2").2.2 historyUserB
    orphanVideo (by decide) (by decide) (by decide) (by decide)

end YoutubeBackend
